/-
Verification of the purisa coordination-detection engine
(`backend/purisa/services/coordination.py` and
`backend/purisa/services/similarity.py`) against its specification.

Shallow embedding conventions:
* Python floats are modelled as `ℚ`; timestamps are seconds as `ℚ`.
* Python lists are Lean `List`s; Python dicts are association lists kept in
  insertion order (matching CPython dict semantics); Python sets that the
  code only ever iterates or tests membership on are modelled as deduplicated
  lists.
* The opaque numeric/library kernels that cannot be re-implemented faithfully
  (sklearn TF-IDF cosine similarity, the regex/urlparse URL and hashtag
  extractors, networkx `louvain_communities`) are abstracted as parameters in
  a `Kernels` record; every piece of control flow, filtering, pairing,
  graph-fusion, scoring and persistence logic around them is translated
  directly from the source.
* The database session is modelled as an explicit `Store` value threaded
  through the persistence functions; a commit failure is injected through a
  `commitOk : Bool` flag, and Python exception propagation out of
  `analyze_hour` is modelled with `Except String`.
-/
import Mathlib

namespace Purisa

/-- A row of the `posts` table as consumed by the analyzer
(`database/models.py`: id, account_id, platform, content, created_at,
parent_id, post_type). -/
structure Post where
  id : String
  account_id : String
  platform : String
  content : String
  created_at : ℚ
  parent_id : Option String
  post_type : String
deriving DecidableEq, Repr

/-- `CoordinationConfig` dataclass (`coordination.py` lines 38-64).
The generated dataclass constructor performs no validation whatsoever,
so every structure value is constructible. -/
structure CoordinationConfig where
  sync_window_seconds : ℚ := 90
  analysis_window_hours : ℕ := 1
  text_similarity_threshold : ℚ := 8/10
  min_hashtag_overlap : ℕ := 2
  min_cluster_size : ℕ := 3
  min_cluster_density : ℚ := 3/10
  louvain_resolution : ℚ := 1
  sync_weight : ℚ := 1
  url_weight : ℚ := 3/2
  text_weight : ℚ := 1
  hashtag_weight : ℚ := 1/2
  reply_pattern_weight : ℚ := 8/10
  cluster_coverage_weight : ℚ := 4/10
  density_weight : ℚ := 3/10
  sync_rate_weight : ℚ := 3/10
deriving DecidableEq, Repr

/-- The default configuration (all dataclass defaults). -/
def defaultConfig : CoordinationConfig := {}

/-- Evidence dictionary of a `SimilarityResult` (`similarity.py`): it always
holds `account1`/`account2`, plus signal-specific entries kept as a generic
key-value list. -/
structure SimEvidence where
  account1 : String
  account2 : String
  extra : List (String × String)
deriving DecidableEq, Repr

/-- `SimilarityResult` dataclass (`similarity.py` lines 19-26). -/
structure SimilarityResult where
  item1_id : String
  item2_id : String
  similarity_score : ℚ
  similarity_type : String
  evidence : SimEvidence
deriving DecidableEq, Repr

/-- Evidence payload attached to a graph edge for one signal type:
either a synchronized-posting record, a reply-pattern record, or the
evidence dict of a `SimilarityResult`. -/
inductive EdgeEvidence where
  | syncEv (time_diff_seconds : ℚ) (post1_id post2_id : String)
  | replyEv (parent_id : String) (comment_count : ℕ)
  | simEv (e : SimEvidence)
deriving DecidableEq, Repr

/-- One undirected edge of the similarity graph, with accumulated weight,
the set of contributing signal types (insertion-ordered list) and the
per-type evidence map (association list). -/
structure Edge where
  a1 : String
  a2 : String
  weight : ℚ
  types : List String
  evidence : List (String × EdgeEvidence)
deriving DecidableEq, Repr

/-- The account similarity graph (`networkx.Graph`): nodes are account ids,
edges are undirected. -/
structure Graph where
  nodes : List String
  edges : List Edge
deriving DecidableEq, Repr

/-- `Cluster` dataclass (`coordination.py` lines 67-76). -/
structure Cluster where
  cluster_id : String
  members : List String
  density : ℚ
  size : ℕ
  edge_count : ℕ
  primary_type : String
  centrality_scores : List (String × ℚ)
deriving DecidableEq, Repr

/-- `CoordinationResult` dataclass (`coordination.py` lines 79-96). -/
structure CoordinationResult where
  platform : String
  time_window_start : ℚ
  time_window_end : ℚ
  coordination_score : ℚ
  total_posts : ℕ
  coordinated_posts : ℕ
  organic_posts : ℕ
  clusters : List Cluster
  edge_count : ℕ
  sync_rate : ℚ
  url_sharing_rate : ℚ
  text_similarity_rate : ℚ
  is_spike : Bool
  spike_magnitude : ℚ
deriving DecidableEq, Repr

/-- A persisted `coordination_metrics` row (`coordination_models.py`),
restricted to the columns the engine reads or writes. -/
structure MetricRow where
  platform : String
  time_bucket : ℚ
  bucket_type : String
  coordination_score : ℚ
  total_posts_analyzed : ℕ
  coordinated_posts_count : ℕ
  organic_posts_count : ℕ
  active_cluster_count : ℕ
  avg_cluster_size : ℚ
  synchronized_posting_rate : ℚ
  url_sharing_rate : ℚ
  text_similarity_rate : ℚ
deriving DecidableEq, Repr

/-- A persisted `coordination_clusters` row, restricted to the columns
`_store_results` writes. -/
structure ClusterRow where
  cluster_id : String
  platform : String
  time_window_start : ℚ
  time_window_end : ℚ
  member_count : ℕ
  density_score : ℚ
  cluster_type : String
  coordination_score : ℚ
deriving DecidableEq, Repr

/-- A persisted `cluster_members` row. -/
structure MemberRow where
  cluster_id : String
  account_id : String
  centrality_score : ℚ
  edge_count : ℕ
deriving DecidableEq, Repr

/-- The result store (database state seen by the coordination service). -/
structure Store where
  metrics : List MetricRow
  clusters : List ClusterRow
  members : List MemberRow
deriving DecidableEq, Repr

/-- The empty store. -/
def Store.empty : Store := ⟨[], [], []⟩

/-- The opaque library kernels used by the engine, abstracted as parameters:
sklearn TF-IDF text similarity (`TextSimilarityCalculator.find_similar_pairs`),
the regex/urlparse URL extractor (`extract_urls`, returned set as a
deduplicated list), the regex hashtag extractor (`extract_hashtags`), and
networkx `louvain_communities`. -/
structure Kernels where
  textSim : List (String × String × String) → List SimilarityResult
  extractUrls : String → List String
  extractHashtags : String → List String
  louvain : Graph → List (List String)

/-! ### Window query -/

/-- `_get_posts_in_window` (`coordination.py` lines 301-314): posts of the
platform with `start ≤ created_at < end` and `post_type == 'post'`
(original posts only, comments excluded). -/
def getPostsInWindow (allPosts : List Post) (platform : String)
    (start stop : ℚ) : List Post :=
  allPosts.filter fun p =>
    p.platform = platform ∧ start ≤ p.created_at ∧ p.created_at < stop ∧
      p.post_type = "post"

/-! ### Synchronized-posting extractor -/

/-- Ordering of posts by `created_at`, the sort key of
`sorted(posts, key=lambda p: p.created_at)`. -/
def timeLe (p q : Post) : Prop := p.created_at ≤ q.created_at

instance : DecidableRel timeLe :=
  fun p q => inferInstanceAs (Decidable (p.created_at ≤ q.created_at))

instance : IsTotal Post timeLe := ⟨fun p q => le_total p.created_at q.created_at⟩

instance : IsTrans Post timeLe := ⟨fun _ _ _ h h' => le_trans h h'⟩

/-- The synchronized-posting edge emitted for an in-window ordered pair:
(account1, account2, evidence with time delta and both post ids). -/
def mkSyncEdge (p q : Post) : String × String × EdgeEvidence :=
  (p.account_id, q.account_id,
    .syncEv (q.created_at - p.created_at) p.id q.id)

/-- Inner forward scan of `_find_synchronized_pairs`: compare `p` against the
later posts in order, `break` at the first time delta exceeding
`sync_window_seconds`, emit a pair whenever the accounts differ. -/
def syncInner (cfg : CoordinationConfig) (p : Post) :
    List Post → List (String × String × EdgeEvidence)
  | [] => []
  | q :: rest =>
      if q.created_at - p.created_at > cfg.sync_window_seconds then []
      else if p.account_id ≠ q.account_id then
        mkSyncEdge p q :: syncInner cfg p rest
      else
        syncInner cfg p rest

/-- Outer loop of `_find_synchronized_pairs`: run the forward scan from every
position of the (already sorted) post list. -/
def syncScan (cfg : CoordinationConfig) :
    List Post → List (String × String × EdgeEvidence)
  | [] => []
  | p :: rest => syncInner cfg p rest ++ syncScan cfg rest

/-- `_find_synchronized_pairs` (`coordination.py` lines 363-392): sort posts
by time, then forward-scan with early exit. -/
def findSynchronizedPairs (cfg : CoordinationConfig) (posts : List Post) :
    List (String × String × EdgeEvidence) :=
  syncScan cfg (List.insertionSort timeLe posts)

/-- Specification-side definition (from the spec's words, for the
refinement claim): the naive full pairwise comparison — for every ordered
pair of positions `i < j` of the time-sorted list, emit the pair exactly
when the time delta is within `sync_window_seconds` and the accounts
differ. -/
def naiveSyncPairs (cfg : CoordinationConfig) :
    List Post → List (String × String × EdgeEvidence)
  | [] => []
  | p :: rest =>
      (rest.filter fun q =>
        q.created_at - p.created_at ≤ cfg.sync_window_seconds ∧
          p.account_id ≠ q.account_id).map (mkSyncEdge p)
        ++ naiveSyncPairs cfg rest

/-! ### Reply-pattern extractor -/

/-- Append a value to the group of key `k` in an insertion-ordered
association list (CPython dict semantics). -/
def assocAppend {β : Type} (m : List (String × List β)) (k : String) (v : β) :
    List (String × List β) :=
  match m with
  | [] => [(k, [v])]
  | (k', vs) :: rest =>
      if k' = k then (k', vs ++ [v]) :: rest else (k', vs) :: assocAppend rest k v

/-- Grouping step of `_find_reply_pattern_pairs`: group posts by `parent_id`,
skipping posts whose `parent_id` is `None` or empty (Python truthiness of
`if post.parent_id`). -/
def groupByParent (posts : List Post) : List (String × List Post) :=
  posts.foldl
    (fun m p =>
      match p.parent_id with
      | none => m
      | some pid => if pid = "" then m else assocAppend m pid p)
    []

/-- All ordered pairs `(xs[i], xs[j])` with `i < j`. -/
def pairsOf {α : Type} : List α → List (α × α)
  | [] => []
  | a :: rest => rest.map (fun b => (a, b)) ++ pairsOf rest

/-- `_find_reply_pattern_pairs` (`coordination.py` lines 394-425): group its
input posts by `parent_id`; for every parent with ≥2 grouped posts, emit
every ordered pair of the distinct accounts, with the parent id and comment
count as evidence. (`list(set(...))` iterates in an arbitrary order; the
deduplicated account list stands in for it.) -/
def findReplyPatternPairs (posts : List Post) :
    List (String × String × EdgeEvidence) :=
  (groupByParent posts).flatMap fun g =>
    if g.2.length < 2 then []
    else
      (pairsOf (g.2.map (·.account_id)).dedup).map fun ab =>
        (ab.1, ab.2, .replyEv g.1 g.2.length)

/-! ### URL-sharing extractor -/

/-- `tuple(sorted([post1_id, post2_id]))`: the canonical unordered key of a
post pair (lexicographic string order, as in Python). -/
def pairKey (p q : String) : String × String :=
  if p ≤ q then (p, q) else (q, p)

/-- Per-post URL extraction step of `find_url_sharing_pairs`
(`similarity.py` lines 231-236): keep `(post_id, account_id, urls)` for the
posts whose extracted URL set is non-empty. Post ids are primary keys of the
`posts` table, so keying the Python dict by post id never overwrites. -/
def postUrls (extractUrls : String → List String)
    (posts : List (String × String × String)) :
    List (String × String × List String) :=
  posts.filterMap fun t =>
    let urls := (extractUrls t.2.2).dedup
    if urls = [] then none else some (t.1, t.2.1, urls)

/-- URL → [(post_id, account_id)] index of `find_url_sharing_pairs`
(`similarity.py` lines 241-247), in insertion order. -/
def urlIndex (pus : List (String × String × List String)) :
    List (String × List (String × String)) :=
  pus.foldl
    (fun idx pu => pu.2.2.foldl (fun idx url => assocAppend idx url (pu.1, pu.2.1)) idx)
    []

/-- Inner loop body of `find_url_sharing_pairs`: compare one
`(post_id, account_id)` entry `p` against a later entry `q` sharing the same
URL: skip same-account pairs, skip post-id pairs already in `seen_pairs`,
otherwise record the pair and emit a `SimilarityResult` with score 1.0 and
the shared URL as evidence. State is (results so far, seen pair keys). -/
def urlStep (url : String) (p : String × String)
    (st : List SimilarityResult × List (String × String))
    (q : String × String) :
    List SimilarityResult × List (String × String) :=
  if p.2 = q.2 then st
  else if pairKey p.1 q.1 ∈ st.2 then st
  else
    (st.1 ++ [⟨p.1, q.1, 1, "url", ⟨p.2, q.2, [("shared_url", url)]⟩⟩],
      st.2 ++ [pairKey p.1 q.1])

/-- Loop body folding `urlStep` over the entries after `p` that share the
URL. -/
def urlScanOne (url : String) (p : String × String)
    (rest : List (String × String))
    (st : List SimilarityResult × List (String × String)) :
    List SimilarityResult × List (String × String) :=
  rest.foldl (urlStep url p) st

/-- Nested pair loop of `find_url_sharing_pairs` over the posts sharing one
URL (`similarity.py` lines 258-280). -/
def urlScanGroup (url : String) :
    List (String × String) →
    List SimilarityResult × List (String × String) →
    List SimilarityResult × List (String × String)
  | [], st => st
  | p :: rest, st => urlScanGroup url rest (urlScanOne url p rest st)

/-- `find_url_sharing_pairs` (`similarity.py` lines 216-282), with the
regex/urlparse URL extractor abstracted as a parameter: fewer than two
posts, or fewer than two posts carrying URLs, yield no results; otherwise
scan each URL shared by ≥2 posts, deduplicating on the unordered post-id
pair across the whole run. -/
def findUrlSharingPairs (extractUrls : String → List String)
    (posts : List (String × String × String)) : List SimilarityResult :=
  if posts.length < 2 then []
  else if (postUrls extractUrls posts).length < 2 then []
  else
    ((urlIndex (postUrls extractUrls posts)).foldl
      (fun st g => if g.2.length < 2 then st else urlScanGroup g.1 g.2 st)
      ([], [])).1

/-! ### Hashtag-overlap extractor -/

/-- `find_hashtag_overlap_pairs` (`similarity.py` lines 285-344), with the
regex hashtag extractor abstracted as a parameter. Posts keep their hashtag
set only when it has at least `min_overlap` tags; every later-position
cross-account pair whose intersection has at least `min_overlap` tags is
emitted with Jaccard similarity as score. -/
def findHashtagOverlapPairs (extractHashtags : String → List String)
    (min_overlap : ℕ) (posts : List (String × String × String)) :
    List SimilarityResult :=
  if posts.length < 2 then []
  else
    let phs := posts.filterMap fun t =>
      let tags := (extractHashtags t.2.2).dedup
      if min_overlap ≤ tags.length then some (t.1, t.2.1, tags) else none
    if phs.length < 2 then []
    else
      let pairResult : String × String × List String →
          String × String × List String → Option SimilarityResult :=
        fun a b =>
          if a.2.1 = b.2.1 then none
          else
            let overlap := a.2.2.filter (· ∈ b.2.2)
            if min_overlap ≤ overlap.length then
              let union := a.2.2 ++ b.2.2.filter (· ∉ a.2.2)
              let sim : ℚ :=
                if union.length = 0 then 0
                else (overlap.length : ℚ) / (union.length : ℚ)
              some ⟨a.1, b.1, sim, "hashtag",
                ⟨a.2.1, b.2.1,
                  [("shared_hashtags", String.intercalate "," overlap),
                    ("overlap_count", toString overlap.length)]⟩⟩
            else none
      (pairsOf phs).filterMap fun ab => pairResult ab.1 ab.2

/-! ### Graph builder -/

/-- `G.has_edge(a1, a2)` on an undirected graph: an edge matches the
unordered endpoint pair. -/
def edgeMatches (e : Edge) (a1 a2 : String) : Bool :=
  decide ((e.a1 = a1 ∧ e.a2 = a2) ∨ (e.a1 = a2 ∧ e.a2 = a1))

/-- Overwrite-or-insert into the per-edge evidence map
(`G[a1][a2]['evidence'][edge_type] = evidence`). -/
def assocSet (m : List (String × EdgeEvidence)) (k : String) (v : EdgeEvidence) :
    List (String × EdgeEvidence) :=
  if m.any (·.1 = k) then m.map (fun kv => if kv.1 = k then (k, v) else kv)
  else m ++ [(k, v)]

/-- `_add_edge` (`coordination.py` lines 427-447): if the edge exists, add
the weight, union in the type and set that type's evidence entry; otherwise
create the edge. -/
def addEdge (G : Graph) (a1 a2 : String) (etype : String) (w : ℚ)
    (ev : EdgeEvidence) : Graph :=
  if G.edges.any (edgeMatches · a1 a2) then
    { G with
      edges := G.edges.map fun e =>
        if edgeMatches e a1 a2 then
          { e with
            weight := e.weight + w
            types := if etype ∈ e.types then e.types else e.types ++ [etype]
            evidence := assocSet e.evidence etype ev }
        else e }
  else
    { G with edges := G.edges ++ [⟨a1, a2, w, [etype], [(etype, ev)]⟩] }

/-- `_add_edge_from_result` (`coordination.py` lines 449-474): read the two
account ids from the result's evidence, skip falsy or equal accounts, and
add an edge with weight `signal_weight × similarity_score`. -/
def addEdgeFromResult (G : Graph) (r : SimilarityResult) (w : ℚ) : Graph :=
  let a1 := r.evidence.account1
  let a2 := r.evidence.account2
  if a1 = "" ∨ a2 = "" ∨ a1 = a2 then G
  else addEdge G a1 a2 r.similarity_type (w * r.similarity_score) (.simEv r.evidence)

/-- `_build_network` (`coordination.py` lines 316-361): nodes are the
accounts of the window's posts; the five signal extractors run in order and
their results are fused into weighted, multi-typed edges. -/
def buildNetwork (K : Kernels) (cfg : CoordinationConfig)
    (posts : List Post) : Graph :=
  let G0 : Graph := ⟨(posts.map (·.account_id)).dedup, []⟩
  let postData := posts.map fun p => (p.id, p.account_id, p.content)
  let G1 := (findSynchronizedPairs cfg posts).foldl
    (fun G e => addEdge G e.1 e.2.1 "synchronized_posting" cfg.sync_weight e.2.2) G0
  let G2 := (findUrlSharingPairs K.extractUrls postData).foldl
    (fun G r => addEdgeFromResult G r cfg.url_weight) G1
  let G3 := (K.textSim postData).foldl
    (fun G r => addEdgeFromResult G r cfg.text_weight) G2
  let G4 := (findHashtagOverlapPairs K.extractHashtags cfg.min_hashtag_overlap postData).foldl
    (fun G r => addEdgeFromResult G r cfg.hashtag_weight) G3
  (findReplyPatternPairs posts).foldl
    (fun G e => addEdge G e.1 e.2.1 "reply_pattern" cfg.reply_pattern_weight e.2.2) G4

/-! ### Community detector -/

/-- Edges of the subgraph induced by a community (both endpoints in the
community). -/
def subgraphEdges (G : Graph) (community : List String) : List Edge :=
  G.edges.filter fun e => e.a1 ∈ community ∧ e.a2 ∈ community

/-- `nx.density` for an undirected graph on `n` nodes with `m` edges:
`2m / (n(n-1))`, and `0` when `n ≤ 1` or `m = 0`. -/
def graphDensity (n m : ℕ) : ℚ :=
  if n ≤ 1 ∨ m = 0 then 0 else (2 * m : ℚ) / ((n : ℚ) * ((n : ℚ) - 1))

/-- Degree of a node within a subgraph's edge list. -/
def nodeDegree (edges : List Edge) (a : String) : ℕ :=
  (edges.filter fun e => e.a1 = a ∨ e.a2 = a).length

/-- `nx.degree_centrality` on the induced subgraph: degree divided by
`n - 1` (every node mapped to 1 when the subgraph has at most one node). -/
def degreeCentrality (community : List String) (edges : List Edge) :
    List (String × ℚ) :=
  if community.length ≤ 1 then community.map (fun a => (a, 1))
  else
    community.map fun a =>
      (a, (nodeDegree edges a : ℚ) / ((community.length : ℚ) - 1))

/-- Insertion-ordered counter increment (`edge_types[t] = get(t, 0) + 1`). -/
def assocIncr (m : List (String × ℕ)) (k : String) : List (String × ℕ) :=
  match m with
  | [] => [(k, 1)]
  | (k', n) :: rest =>
      if k' = k then (k', n + 1) :: rest else (k', n) :: assocIncr rest k

/-- Count the occurrences of each edge type over a list of edges
(`coordination.py` lines 505-508). -/
def countTypes (edges : List Edge) : List (String × ℕ) :=
  edges.foldl (fun m e => e.types.foldl (fun m t => assocIncr m t) m) []

/-- `max(edge_types, key=edge_types.get)` with `'unknown'` for an empty
counter: the first key attaining the maximal count, in insertion order. -/
def maxCountKey : List (String × ℕ) → String
  | [] => "unknown"
  | kv :: rest =>
      (rest.foldl (fun best kv' => if kv'.2 > best.2 then kv' else best) kv).1

/-- Body of the per-community loop of `_detect_clusters` (`coordination.py`
lines 491-521), with `datetime.now()`'s minute-formatted cluster-id stamp
passed in as `runTag`: discard communities below `min_cluster_size` or
whose induced-subgraph density is below `min_cluster_density`; survivors
carry density, degree centralities and the dominant edge type. -/
def clusterOf (cfg : CoordinationConfig) (runTag : String) (G : Graph)
    (i : ℕ) (community : List String) : Option Cluster :=
  if community.length < cfg.min_cluster_size then none
  else if graphDensity community.length (subgraphEdges G community).length <
      cfg.min_cluster_density then none
  else
    some
      { cluster_id := runTag ++ "_cluster_" ++ toString i
        members := community
        density := graphDensity community.length
          (subgraphEdges G community).length
        size := community.length
        edge_count := (subgraphEdges G community).length
        primary_type := maxCountKey (countTypes (subgraphEdges G community))
        centrality_scores := degreeCentrality community
          (subgraphEdges G community) }

/-- Per-community loop of `_detect_clusters` applied to every community
returned by Louvain (the enumeration index feeds the cluster id; skipped
communities still consume their index, as with Python's `enumerate`). -/
def detectClusters (K : Kernels) (cfg : CoordinationConfig) (runTag : String)
    (G : Graph) : List Cluster :=
  if G.nodes.length < cfg.min_cluster_size then []
  else
    (K.louvain G).enum.filterMap fun ic => clusterOf cfg runTag G ic.1 ic.2

/-! ### Metric calculator -/

/-- `np.mean` on a rational list (callers guard against emptiness as the
source does). -/
def listMean (xs : List ℚ) : ℚ := xs.sum / (xs.length : ℚ)

/-- Number of graph edges whose type set contains a given signal type. -/
def edgeCountOfType (G : Graph) (t : String) : ℕ :=
  (G.edges.filter fun e => t ∈ e.types).length

/-- Number of the window's posts whose author belongs to some surviving
cluster (`coordinated_posts`). -/
def coordinatedCount (posts : List Post) (clusters : List Cluster) : ℕ :=
  (posts.filter fun p => clusters.any fun c => p.account_id ∈ c.members).length

/-- `cluster_coverage = coordinated_posts / total_posts` (0 when the window
is empty). -/
def clusterCoverage (posts : List Post) (clusters : List Cluster) : ℚ :=
  if posts.length > 0 then
    (coordinatedCount posts clusters : ℚ) / (posts.length : ℚ)
  else 0

/-- `avg_density = np.mean([c.density for c in clusters])` (0 without
clusters). -/
def avgClusterDensity (clusters : List Cluster) : ℚ :=
  if clusters.isEmpty then 0 else listMean (clusters.map (·.density))

/-- Per-signal rate `2 × (edges carrying the type) / total_posts` (0 when
the window is empty). -/
def signalRate (graph : Graph) (t : String) (total : ℕ) : ℚ :=
  if total > 0 then (edgeCountOfType graph t * 2 : ℚ) / (total : ℚ) else 0

/-- `_calculate_metrics` (`coordination.py` lines 530-602): post coverage by
clustered accounts, mean cluster density, per-signal edge rates, and the
coordination score `min((coverage·w₁ + density·w₂ + sync·w₃) × 100, 100)`. -/
def calculateMetrics (cfg : CoordinationConfig) (platform : String)
    (start stop : ℚ) (posts : List Post) (graph : Graph)
    (clusters : List Cluster) : CoordinationResult :=
  let total := posts.length
  let coordinated := coordinatedCount posts clusters
  let organic := total - coordinated
  let cluster_coverage := clusterCoverage posts clusters
  let avg_density := avgClusterDensity clusters
  let sync_rate := signalRate graph "synchronized_posting" total
  let url_rate := signalRate graph "url" total
  let text_rate := signalRate graph "text" total
  let score :=
    min
      ((cluster_coverage * cfg.cluster_coverage_weight +
          avg_density * cfg.density_weight +
          sync_rate * cfg.sync_rate_weight) * 100)
      100
  { platform := platform
    time_window_start := start
    time_window_end := stop
    coordination_score := score
    total_posts := total
    coordinated_posts := coordinated
    organic_posts := organic
    clusters := clusters
    edge_count := graph.edges.length
    sync_rate := sync_rate
    url_sharing_rate := url_rate
    text_similarity_rate := text_rate
    is_spike := false
    spike_magnitude := 0 }

/-- `_empty_result` (`coordination.py` lines 674-696): the all-zero result
returned for windows with insufficient data. -/
def emptyResult (platform : String) (start stop : ℚ) : CoordinationResult :=
  { platform := platform
    time_window_start := start
    time_window_end := stop
    coordination_score := 0
    total_posts := 0
    coordinated_posts := 0
    organic_posts := 0
    clusters := []
    edge_count := 0
    sync_rate := 0
    url_sharing_rate := 0
    text_similarity_rate := 0
    is_spike := false
    spike_magnitude := 0 }

/-! ### Persistence -/

/-- The fresh metric row written for a result (the same field values are
used both for creating a new row and for updating an existing one). -/
def metricRowOf (r : CoordinationResult) : MetricRow :=
  { platform := r.platform
    time_bucket := r.time_window_start
    bucket_type := "hourly"
    coordination_score := r.coordination_score
    total_posts_analyzed := r.total_posts
    coordinated_posts_count := r.coordinated_posts
    organic_posts_count := r.organic_posts
    active_cluster_count := r.clusters.length
    avg_cluster_size :=
      if r.clusters.isEmpty then 0
      else listMean (r.clusters.map (fun c => (c.size : ℚ)))
    synchronized_posting_rate := r.sync_rate
    url_sharing_rate := r.url_sharing_rate
    text_similarity_rate := r.text_similarity_rate }

/-- Does a stored metric row carry the upsert key
(platform, time_bucket, bucket_type='hourly') of a result? -/
def metricKeyMatches (m : MetricRow) (r : CoordinationResult) : Bool :=
  decide (m.platform = r.platform ∧ m.time_bucket = r.time_window_start ∧
    m.bucket_type = "hourly")

/-- Update the first row matching the predicate in place, or append the
fresh row (`.first()` query followed by field updates, else `session.add`). -/
def upsertFirst (p : MetricRow → Bool) (fresh : MetricRow) :
    List MetricRow → List MetricRow
  | [] => [fresh]
  | m :: rest => if p m then fresh :: rest else m :: upsertFirst p fresh rest

/-- The `coordination_clusters` row written for one cluster. -/
def clusterRowOf (r : CoordinationResult) (c : Cluster) : ClusterRow :=
  { cluster_id := c.cluster_id
    platform := r.platform
    time_window_start := r.time_window_start
    time_window_end := r.time_window_end
    member_count := c.size
    density_score := c.density
    cluster_type := c.primary_type
    coordination_score := r.coordination_score }

/-- The `cluster_members` rows written for one cluster. -/
def memberRowsOf (c : Cluster) : List MemberRow :=
  c.centrality_scores.map fun ac =>
    { cluster_id := c.cluster_id
      account_id := ac.1
      centrality_score := ac.2
      edge_count := c.edge_count }

/-- `_store_results` (`coordination.py` lines 604-672). On success the
metric row is upserted on (platform, time_bucket, bucket_type) and new
cluster and member rows are appended; no pre-existing cluster or member row
is deleted. Any failure inside the `try` block (injected here as
`commitOk = false`) triggers `session.rollback()`, leaving the store
unchanged; the exception is caught and logged, never re-raised. -/
def storeResults (commitOk : Bool) (store : Store) (r : CoordinationResult) :
    Store :=
  if commitOk then
    { metrics := upsertFirst (metricKeyMatches · r) (metricRowOf r) store.metrics
      clusters := store.clusters ++ r.clusters.map (clusterRowOf r)
      members := store.members ++ r.clusters.flatMap memberRowsOf }
  else store

/-! ### analyze_hour -/

/-- `analyze_hour` (`coordination.py` lines 118-176): fetch the window's
original posts; short-circuit to the empty result when there are fewer than
`min_cluster_size` posts or the built graph has no edges (no store write on
either path); otherwise detect clusters, compute metrics, store them
(`commitOk` injects a persistence failure) and return the result. -/
def analyzeHour (K : Kernels) (cfg : CoordinationConfig) (runTag : String)
    (platform : String) (hourStart : ℚ) (store : Store)
    (allPosts : List Post) (commitOk : Bool) : CoordinationResult × Store :=
  let hourEnd := hourStart + 3600
  let posts := getPostsInWindow allPosts platform hourStart hourEnd
  if posts.length < cfg.min_cluster_size then
    (emptyResult platform hourStart hourEnd, store)
  else
    let graph := buildNetwork K cfg posts
    if graph.edges.length = 0 then
      (emptyResult platform hourStart hourEnd, store)
    else
      let clusters := detectClusters K cfg runTag graph
      let result := calculateMetrics cfg platform hourStart hourEnd posts graph clusters
      (result, storeResults commitOk store result)

/-- `analyze_hour` as seen by its caller, with Python exception propagation
made explicit: `_store_results` catches every storage exception internally
(logging and rolling back), so every path returns normally. -/
def analyzeHourRun (K : Kernels) (cfg : CoordinationConfig) (runTag : String)
    (platform : String) (hourStart : ℚ) (store : Store)
    (allPosts : List Post) (commitOk : Bool) :
    Except String (CoordinationResult × Store) :=
  Except.ok (analyzeHour K cfg runTag platform hourStart store allPosts commitOk)

/-! ### Spike detector -/

/-- One spike dictionary returned by `get_spikes`. -/
structure Spike where
  time_bucket : ℚ
  coordination_score : ℚ
  z_score : ℚ
  total_posts : ℕ
  cluster_count : ℕ
  baseline_mean : ℚ
  baseline_std : ℚ
deriving DecidableEq, Repr

/-- Ordering of metric rows by `time_bucket` (the query's `ORDER BY`). -/
def bucketLe (m m' : MetricRow) : Prop := m.time_bucket ≤ m'.time_bucket

instance : DecidableRel bucketLe :=
  fun m m' => inferInstanceAs (Decidable (m.time_bucket ≤ m'.time_bucket))

instance : IsTotal MetricRow bucketLe :=
  ⟨fun m m' => le_total m.time_bucket m'.time_bucket⟩

instance : IsTrans MetricRow bucketLe := ⟨fun _ _ _ h h' => le_trans h h'⟩

/-- Descending z-score order used by `sorted(spikes, key=z, reverse=True)`. -/
def zGe (s t : Spike) : Prop := t.z_score ≤ s.z_score

instance : DecidableRel zGe :=
  fun s t => inferInstanceAs (Decidable (t.z_score ≤ s.z_score))

instance : IsTotal Spike zGe := ⟨fun s t => le_total t.z_score s.z_score⟩

instance : IsTrans Spike zGe := ⟨fun _ _ _ h h' => le_trans h' h⟩

/-- The hourly metric rows of a platform within the lookback, ordered by
time bucket (the query of `get_spikes`, lines 269-273). -/
def lookbackMetrics (store : Store) (platform : String) (cutoff : ℚ) :
    List MetricRow :=
  List.insertionSort bucketLe
    (store.metrics.filter fun m =>
      m.platform = platform ∧ cutoff ≤ m.time_bucket ∧ m.bucket_type = "hourly")

/-- Population variance of a score list (`np.std` squared). -/
def popVariance (xs : List ℚ) : ℚ :=
  listMean (xs.map fun x => (x - listMean xs) ^ 2)

/-- The spike dictionary built for one metric row (lines 289-297). -/
def mkSpike (m : MetricRow) (mean_score std : ℚ) : Spike :=
  { time_bucket := m.time_bucket
    coordination_score := m.coordination_score
    z_score := (m.coordination_score - mean_score) / std
    total_posts := m.total_posts_analyzed
    cluster_count := m.active_cluster_count
    baseline_mean := mean_score
    baseline_std := std }

/-- `get_spikes` (`coordination.py` lines 248-299), parameterized by the
value `std` that `np.std` returns for the scores (the exact nonnegative
square root of the population variance — irrational in general, so passed
in rather than computed): fewer than 10 rows or zero deviation yield no
spikes; otherwise the rows with z-score at least `threshold_std` are
emitted, carrying the baseline mean and deviation, sorted by z-score
descending. -/
def getSpikes (store : Store) (platform : String) (cutoff : ℚ) (std : ℚ)
    (threshold_std : ℚ) : List Spike :=
  if (lookbackMetrics store platform cutoff).length < 10 then []
  else if std = 0 then []
  else
    List.insertionSort zGe
      ((lookbackMetrics store platform cutoff).filterMap fun m =>
        if threshold_std ≤ (m.coordination_score -
            listMean ((lookbackMetrics store platform cutoff).map
              (·.coordination_score))) / std then
          some (mkSpike m
            (listMean ((lookbackMetrics store platform cutoff).map
              (·.coordination_score))) std)
        else none)

/-! ### Concrete fixtures used by witnesses and counterexamples -/

/-- Trivial kernel instantiation: no text-similarity pairs (e.g. every
content preprocesses to fewer than `min_text_length` characters, upon which
`find_similar_pairs` returns `[]` before vectorizing), no URLs, no
hashtags, no communities. -/
def noKernels : Kernels := ⟨fun _ => [], fun _ => [], fun _ => [], fun _ => []⟩

/-- Helper to build an original post. -/
def mkPost (id account : String) (t : ℚ) : Post :=
  ⟨id, account, "bluesky", "", t, none, "post"⟩

/-- Helper to build a comment (`post_type='comment'`, as every collector
stores replies). -/
def mkComment (id account : String) (t : ℚ) (parent : String) : Post :=
  ⟨id, account, "bluesky", "", t, some parent, "comment"⟩

/-- Scenario B: five distinct accounts, unrelated non-overlapping posts
within one hour (200 s apart, beyond the 90 s sync window). -/
def scenarioB : List Post :=
  [mkPost "b1" "a1" 0, mkPost "b2" "a2" 200, mkPost "b3" "a3" 400,
    mkPost "b4" "a4" 600, mkPost "b5" "a5" 800]

/-- Three distinct accounts posting 10 s apart: every pair is within the
90 s sync window, so the graph is a triangle of `synchronized_posting`
edges. -/
def scenarioT : List Post :=
  [mkPost "t1" "x" 0, mkPost "t2" "y" 10, mkPost "t3" "z" 20]

/-- Three organic original posts plus two comments by two distinct accounts
on the same parent post, all inside the hour. -/
def scenarioR : List Post :=
  [mkPost "r1" "a1" 0, mkPost "r2" "a2" 200, mkPost "r3" "a3" 400,
    mkComment "r4" "c1" 500 "r1", mkComment "r5" "c2" 510 "r1"]

/-- Kernels whose community detection returns the single community
{x, y, z} — what Louvain produces on the `scenarioT` triangle. -/
def triKernels : Kernels :=
  ⟨fun _ => [], fun _ => [], fun _ => [], fun _ => [["x", "y", "z"]]⟩

/-- A configuration with a negative weight, as the unvalidated dataclass
constructor happily produces. -/
def negConfig : CoordinationConfig := { defaultConfig with sync_weight := -1 }

/-- A configuration with a negative scoring weight. -/
def negScoreConfig : CoordinationConfig :=
  { defaultConfig with
    cluster_coverage_weight := -1, density_weight := 0, sync_rate_weight := 0 }

/-- URL extractor for posts whose content is exactly one URL token. -/
def extractSelf : String → List String := fun s => [s]

/-- Two accounts `A` and `B` sharing two URLs through two different post
pairs: `p1`/`p2` share `u1`, `p3`/`p4` share `u2`. -/
def urlPosts4 : List (String × String × String) :=
  [("p1", "A", "u1"), ("p2", "B", "u1"), ("p3", "A", "u2"), ("p4", "B", "u2")]

/-- A concrete detected cluster used to exercise persistence. -/
def clA : Cluster :=
  ⟨"runA_cluster_0", ["x", "y", "z"], 1, 3, 3, "synchronized_posting",
    [("x", 1), ("y", 1), ("z", 1)]⟩

/-- The same cluster as re-detected by a later run (a fresh timestamped
cluster id). -/
def clB : Cluster :=
  ⟨"runB_cluster_0", ["x", "y", "z"], 1, 3, 3, "synchronized_posting",
    [("x", 1), ("y", 1), ("z", 1)]⟩

/-- A window result carrying `clA`. -/
def resA : CoordinationResult :=
  { platform := "p", time_window_start := 0, time_window_end := 3600,
    coordination_score := 60, total_posts := 3, coordinated_posts := 3,
    organic_posts := 0, clusters := [clA], edge_count := 3, sync_rate := 2,
    url_sharing_rate := 0, text_similarity_rate := 0, is_spike := false,
    spike_magnitude := 0 }

/-- The same (platform, window) re-analyzed: fresh cluster `clB`, updated
score. -/
def resB : CoordinationResult :=
  { platform := "p", time_window_start := 0, time_window_end := 3600,
    coordination_score := 70, total_posts := 3, coordinated_posts := 3,
    organic_posts := 0, clusters := [clB], edge_count := 3, sync_rate := 2,
    url_sharing_rate := 0, text_similarity_rate := 0, is_spike := false,
    spike_magnitude := 0 }

/-- An hourly metric row with a given time bucket and score. -/
def mkMetric (t score : ℚ) : MetricRow :=
  { platform := "p", time_bucket := t, bucket_type := "hourly",
    coordination_score := score, total_posts_analyzed := 10,
    coordinated_posts_count := 0, organic_posts_count := 10,
    active_cluster_count := 1, avg_cluster_size := 0,
    synchronized_posting_rate := 0, url_sharing_rate := 0,
    text_similarity_rate := 0 }

/-- Scenario C: nine hourly scores of 10 and one of 50 (population mean 14,
population variance 144, standard deviation 12). -/
def scenarioCStore : Store :=
  ⟨[mkMetric 0 10, mkMetric 1 10, mkMetric 2 10, mkMetric 3 10,
      mkMetric 4 10, mkMetric 5 10, mkMetric 6 10, mkMetric 7 10,
      mkMetric 8 10, mkMetric 9 50], [], []⟩

/-!
## Claim theorems
-/

/-- C1 counterexample: Scenario B — five distinct unrelated posts in the
window, the built graph has zero edges, yet `analyze_hour` returns the
empty result whose `organic_posts` is 0, not 5 (`_empty_result` zeroes
every count, including `total_posts`). -/
theorem scenarioB_organic_posts_zero_not_five :
    (getPostsInWindow scenarioB "bluesky" 0 3600).length = 5 ∧
    (buildNetwork noKernels defaultConfig
        (getPostsInWindow scenarioB "bluesky" 0 3600)).edges = [] ∧
    (analyzeHour noKernels defaultConfig "t" "bluesky" 0 Store.empty scenarioB
        true).1.organic_posts = 0 ∧
    (analyzeHour noKernels defaultConfig "t" "bluesky" 0 Store.empty scenarioB
        true).1.organic_posts ≠ 5 := by
  with_unfolding_all decide

/-- C1 (corrected): a window whose posts produce zero graph edges
short-circuits to the all-zero `_empty_result`: zero clusters,
`coordination_score = 0`, and `total_posts = coordinated_posts =
organic_posts = 0` — `organic_posts` is 0, not the number of posts in the
window — so `coordinated_posts + organic_posts = total_posts` holds
trivially. -/
theorem zero_edge_window_yields_empty_result (K : Kernels)
    (cfg : CoordinationConfig) (tag platform : String) (hs : ℚ)
    (store : Store) (allPosts : List Post) (ok : Bool)
    (h : (buildNetwork K cfg
        (getPostsInWindow allPosts platform hs (hs + 3600))).edges = []) :
    (analyzeHour K cfg tag platform hs store allPosts ok).1 =
      emptyResult platform hs (hs + 3600) ∧
    (analyzeHour K cfg tag platform hs store allPosts ok).1.organic_posts = 0 ∧
    (analyzeHour K cfg tag platform hs store allPosts ok).1.coordinated_posts +
        (analyzeHour K cfg tag platform hs store allPosts ok).1.organic_posts =
      (analyzeHour K cfg tag platform hs store allPosts ok).1.total_posts := by
  have hres : (analyzeHour K cfg tag platform hs store allPosts ok).1 =
      emptyResult platform hs (hs + 3600) := by
    unfold analyzeHour
    by_cases h1 : (getPostsInWindow allPosts platform hs
        (hs + 3600)).length < cfg.min_cluster_size
    · simp [h1]
    · simp [h1, h]
  exact ⟨hres, by rw [hres]; rfl, by rw [hres]; rfl⟩

/-- C1 witness: Scenario B instantiates the zero-edge hypothesis. -/
theorem zero_edge_window_yields_empty_result_witness :
    (buildNetwork noKernels defaultConfig
        (getPostsInWindow scenarioB "bluesky" 0 (0 + 3600))).edges = [] ∧
    ((analyzeHour noKernels defaultConfig "t" "bluesky" 0 Store.empty scenarioB
          true).1 = emptyResult "bluesky" 0 (0 + 3600) ∧
      (analyzeHour noKernels defaultConfig "t" "bluesky" 0 Store.empty
            scenarioB true).1.organic_posts = 0 ∧
      (analyzeHour noKernels defaultConfig "t" "bluesky" 0 Store.empty
              scenarioB true).1.coordinated_posts +
          (analyzeHour noKernels defaultConfig "t" "bluesky" 0 Store.empty
              scenarioB true).1.organic_posts =
        (analyzeHour noKernels defaultConfig "t" "bluesky" 0 Store.empty
            scenarioB true).1.total_posts) :=
  ⟨by with_unfolding_all decide,
    zero_edge_window_yields_empty_result noKernels defaultConfig "t" "bluesky"
      0 Store.empty scenarioB true (by with_unfolding_all decide)⟩

/-- C2 (code bug): the claim says `analyze_hour` feeds the window's
comments to the Reply-Pattern signal, and the extractor's own docstring
says it finds "pairs of accounts commenting on the same posts" — but
`_get_posts_in_window` filters `post_type == 'post'`, and every collector
stores replies with `post_type='comment'`, so the extractor never sees a
comment: with two distinct-account comments on the same parent inside the
window, the window query returns only the three originals and no
reply-pattern pair (and no edge at all) is produced. -/
theorem reply_pattern_sees_no_comments :
    (scenarioR.filter fun p =>
        p.post_type = "comment" ∧ p.parent_id = some "r1").map (·.account_id)
      = ["c1", "c2"] ∧
    (getPostsInWindow scenarioR "bluesky" 0 3600).filter
        (fun p => p.post_type = "comment") = [] ∧
    findReplyPatternPairs (getPostsInWindow scenarioR "bluesky" 0 3600) = [] ∧
    (buildNetwork noKernels defaultConfig
        (getPostsInWindow scenarioR "bluesky" 0 3600)).edges = [] := by
  with_unfolding_all decide

set_option maxRecDepth 8000 in
/-- C3 counterexample: a persistence failure while storing the `scenarioT`
window is not surfaced — `analyze_hour` still returns the computed result
normally (the exception is caught inside `_store_results`), with the store
rolled back; the last conjunct shows the suppressed write was real (a
successful commit would have changed the store). -/
theorem persistence_failure_not_surfaced :
    (analyzeHourRun noKernels defaultConfig "t" "bluesky" 0 Store.empty
        scenarioT false).isOk = true ∧
    (analyzeHour noKernels defaultConfig "t" "bluesky" 0 Store.empty scenarioT
        false).1.coordination_score = 60 ∧
    (analyzeHour noKernels defaultConfig "t" "bluesky" 0 Store.empty scenarioT
        false).2 = Store.empty ∧
    storeResults true Store.empty
        (analyzeHour noKernels defaultConfig "t" "bluesky" 0 Store.empty
          scenarioT false).1 ≠ Store.empty := by
  refine ⟨by with_unfolding_all decide, by with_unfolding_all decide,
    by with_unfolding_all decide, by with_unfolding_all decide⟩

/-- C3 (corrected): when a store write fails, all of the window's pending
writes are rolled back atomically as one unit (the store is left exactly as
it was), but the failure is not surfaced to the caller of `analyze_hour`:
`_store_results` catches the exception, logs it and returns, so
`analyze_hour` completes normally (and nothing is retried). -/
theorem persistence_failure_rolled_back_and_swallowed (K : Kernels)
    (cfg : CoordinationConfig) (tag platform : String) (hs : ℚ)
    (store : Store) (allPosts : List Post) :
    (analyzeHour K cfg tag platform hs store allPosts false).2 = store ∧
    analyzeHourRun K cfg tag platform hs store allPosts false =
      Except.ok (analyzeHour K cfg tag platform hs store allPosts false) := by
  refine ⟨?_, rfl⟩
  unfold analyzeHour
  by_cases h1 : (getPostsInWindow allPosts platform hs
      (hs + 3600)).length < cfg.min_cluster_size
  · simp [h1]
  · by_cases h2 : (buildNetwork K cfg (getPostsInWindow allPosts platform hs
        (hs + 3600))).edges.length = 0
    · simp [h1, h2]
    · simp [h1, h2, storeResults]

/-- C4 counterexample: a `CoordinationConfig` with a negative weight is
constructed without any rejection (the dataclass has no validation), and a
window is then processed under it without error. -/
theorem negative_weight_config_not_rejected :
    negConfig.sync_weight < 0 ∧
    (analyzeHourRun noKernels negConfig "t" "bluesky" 0 Store.empty scenarioT
        true).isOk = true := by
  with_unfolding_all decide

/-- C4 (corrected): `CoordinationConfig` construction performs no
validation at all — any values, including negative weights and thresholds,
yield a configuration, and the engine analyzes windows under every such
configuration without rejecting it at construction or at any later point. -/
theorem config_construction_never_rejects (cfg : CoordinationConfig)
    (K : Kernels) (tag platform : String) (hs : ℚ) (store : Store)
    (allPosts : List Post) (ok : Bool) :
    (analyzeHourRun K cfg tag platform hs store allPosts ok).isOk = true := rfl

/-- C10 (confirmed): a short-circuiting window — fewer posts than
`min_cluster_size`, or a zero-edge graph — returns the empty result and
leaves the store completely untouched: no metric, cluster, or member row is
written. -/
theorem short_circuit_writes_nothing (K : Kernels)
    (cfg : CoordinationConfig) (tag platform : String) (hs : ℚ)
    (store : Store) (allPosts : List Post) (ok : Bool)
    (h : (getPostsInWindow allPosts platform hs (hs + 3600)).length <
          cfg.min_cluster_size ∨
        (buildNetwork K cfg (getPostsInWindow allPosts platform hs
          (hs + 3600))).edges.length = 0) :
    analyzeHour K cfg tag platform hs store allPosts ok =
      (emptyResult platform hs (hs + 3600), store) := by
  unfold analyzeHour
  rcases h with h | h
  · simp [h]
  · by_cases h1 : (getPostsInWindow allPosts platform hs
        (hs + 3600)).length < cfg.min_cluster_size
    · simp [h1]
    · simp [h1, h]

/-- C10 witness: the empty window short-circuits on the size guard. -/
theorem short_circuit_writes_nothing_witness :
    ((getPostsInWindow [] "p" 0 (0 + 3600)).length <
        defaultConfig.min_cluster_size ∨
      (buildNetwork noKernels defaultConfig
        (getPostsInWindow [] "p" 0 (0 + 3600))).edges.length = 0) ∧
    analyzeHour noKernels defaultConfig "t" "p" 0 Store.empty [] true =
      (emptyResult "p" 0 (0 + 3600), Store.empty) :=
  ⟨Or.inl (by with_unfolding_all decide),
    short_circuit_writes_nothing noKernels defaultConfig "t" "p" 0 Store.empty
      [] true (Or.inl (by with_unfolding_all decide))⟩

/-- Upserting into a list whose prefix contains no matching row walks past
that prefix untouched. -/
lemma upsertFirst_append (p : MetricRow → Bool) (fresh : MetricRow)
    (l1 l2 : List MetricRow) (h : ∀ m ∈ l1, p m = false) :
    upsertFirst p fresh (l1 ++ l2) = l1 ++ upsertFirst p fresh l2 := by
  induction l1 with
  | nil => rfl
  | cons m rest ih =>
    have hm : p m = false := h m (List.mem_cons_self m rest)
    simp only [List.cons_append, upsertFirst, hm, Bool.false_eq_true,
      if_false, List.cons.injEq, true_and]
    exact ih fun x hx => h x (List.mem_cons_of_mem m hx)

set_option maxRecDepth 8000 in
/-- C5 counterexample: storing the same (platform, window) twice — first
`resA` with cluster row `runA_cluster_0`, then `resB` with the fresh
cluster `runB_cluster_0` — upserts the metric, but the prior run's cluster
row and its three member rows are still present afterwards: the fresh
clusters do not replace the previously persisted cluster/member rows. -/
theorem rerun_keeps_prior_cluster_rows :
    (storeResults true (storeResults true Store.empty resA) resB).metrics =
      [metricRowOf resB] ∧
    (storeResults true (storeResults true Store.empty resA) resB).clusters =
      [clusterRowOf resA clA, clusterRowOf resB clB] ∧
    ((storeResults true (storeResults true Store.empty resA) resB).members.filter
        (fun m => m.cluster_id = "runA_cluster_0")).length = 3 := by
  refine ⟨by with_unfolding_all decide, by rfl, by with_unfolding_all decide⟩

/-- C5 (corrected): re-running the pipeline for the same (platform, window)
upserts the CoordinationMetric row — when no row for the key pre-exists,
two runs leave exactly one row, carrying the fresh run's values — but the
cluster and member rows are only appended: the rows persisted by the
earlier run remain in the store alongside the new ones instead of being
replaced. -/
theorem rerun_upserts_metric_appends_clusters (store : Store)
    (r1 r2 : CoordinationResult) (hp : r1.platform = r2.platform)
    (ht : r1.time_window_start = r2.time_window_start)
    (h : ∀ m ∈ store.metrics, metricKeyMatches m r2 = false) :
    (storeResults true (storeResults true store r1) r2).metrics =
      store.metrics ++ [metricRowOf r2] ∧
    (storeResults true (storeResults true store r1) r2).metrics.filter
        (fun m => metricKeyMatches m r2) = [metricRowOf r2] ∧
    (storeResults true (storeResults true store r1) r2).clusters =
      store.clusters ++ r1.clusters.map (clusterRowOf r1) ++
        r2.clusters.map (clusterRowOf r2) ∧
    (storeResults true (storeResults true store r1) r2).members =
      store.members ++ r1.clusters.flatMap memberRowsOf ++
        r2.clusters.flatMap memberRowsOf := by
  have h1 : ∀ m ∈ store.metrics, metricKeyMatches m r1 = false := by
    intro m hm
    have := h m hm
    simp only [metricKeyMatches, hp, ht] at this ⊢
    exact this
  have hrow1 : metricKeyMatches (metricRowOf r1) r2 = true := by
    simp [metricKeyMatches, metricRowOf, hp, ht]
  have hrow2 : metricKeyMatches (metricRowOf r2) r2 = true := by
    simp [metricKeyMatches, metricRowOf]
  have hm1 : (storeResults true store r1).metrics =
      store.metrics ++ [metricRowOf r1] := by
    have := upsertFirst_append (metricKeyMatches · r1) (metricRowOf r1)
      store.metrics [] h1
    simpa [storeResults] using this
  have hm2 : (storeResults true (storeResults true store r1) r2).metrics =
      store.metrics ++ [metricRowOf r2] := by
    have hu : (storeResults true (storeResults true store r1) r2).metrics =
        upsertFirst (metricKeyMatches · r2) (metricRowOf r2)
          (storeResults true store r1).metrics := by
      simp [storeResults]
    rw [hu, hm1, upsertFirst_append _ _ store.metrics [metricRowOf r1] h]
    simp [upsertFirst, hrow1]
  refine ⟨hm2, ?_, by simp [storeResults], by simp [storeResults]⟩
  rw [hm2, List.filter_append]
  have hnil : store.metrics.filter (fun m => metricKeyMatches m r2) = [] := by
    rw [List.filter_eq_nil_iff]
    intro a ha
    simp [h a ha]
  rw [hnil]
  simp [hrow2]

/-- C5 witness: a fresh store receiving `resA` then `resB`. -/
theorem rerun_upserts_metric_appends_clusters_witness :
    (resA.platform = resB.platform ∧
      resA.time_window_start = resB.time_window_start ∧
      ∀ m ∈ Store.empty.metrics, metricKeyMatches m resB = false) ∧
    ((storeResults true (storeResults true Store.empty resA) resB).metrics =
        Store.empty.metrics ++ [metricRowOf resB] ∧
      (storeResults true (storeResults true Store.empty resA) resB).metrics.filter
          (fun m => metricKeyMatches m resB) = [metricRowOf resB] ∧
      (storeResults true (storeResults true Store.empty resA) resB).clusters =
        Store.empty.clusters ++ resA.clusters.map (clusterRowOf resA) ++
          resB.clusters.map (clusterRowOf resB) ∧
      (storeResults true (storeResults true Store.empty resA) resB).members =
        Store.empty.members ++ resA.clusters.flatMap memberRowsOf ++
          resB.clusters.flatMap memberRowsOf) :=
  ⟨⟨by with_unfolding_all decide, by with_unfolding_all decide,
      by with_unfolding_all decide⟩,
    rerun_upserts_metric_appends_clusters Store.empty resA resB
      (by with_unfolding_all decide) (by with_unfolding_all decide)
      (by with_unfolding_all decide)⟩

/-- Subgraph density is never negative. -/
lemma graphDensity_nonneg (n m : ℕ) : 0 ≤ graphDensity n m := by
  unfold graphDensity
  split
  · exact le_refl 0
  · rename_i hcond
    push_neg at hcond
    apply div_nonneg
    · positivity
    · have h2 : (2 : ℚ) ≤ (n : ℚ) := by exact_mod_cast hcond.1
      nlinarith

/-- Every cluster accepted by the community filter has nonnegative
density. -/
lemma clusterOf_density_nonneg (cfg : CoordinationConfig) (tag : String)
    (G : Graph) (i : ℕ) (community : List String) (c : Cluster)
    (h : clusterOf cfg tag G i community = some c) : 0 ≤ c.density := by
  unfold clusterOf at h
  split at h
  · exact absurd h (by simp)
  · split at h
    · exact absurd h (by simp)
    · rw [Option.some_inj] at h
      rw [← h]
      exact graphDensity_nonneg _ _

/-- Every cluster produced by `_detect_clusters` has nonnegative density. -/
lemma detectClusters_density_nonneg (K : Kernels) (cfg : CoordinationConfig)
    (tag : String) (G : Graph) :
    ∀ c ∈ detectClusters K cfg tag G, 0 ≤ c.density := by
  intro c hc
  unfold detectClusters at hc
  split at hc
  · simp at hc
  · rw [List.mem_filterMap] at hc
    obtain ⟨ic, _, h⟩ := hc
    exact clusterOf_density_nonneg _ _ _ _ _ _ h

/-- Cluster coverage is never negative. -/
lemma clusterCoverage_nonneg (posts : List Post) (clusters : List Cluster) :
    0 ≤ clusterCoverage posts clusters := by
  unfold clusterCoverage
  split
  · exact div_nonneg (by positivity) (by positivity)
  · exact le_refl 0

/-- Mean cluster density is nonnegative when every density is. -/
lemma avgClusterDensity_nonneg (clusters : List Cluster)
    (hd : ∀ c ∈ clusters, 0 ≤ c.density) : 0 ≤ avgClusterDensity clusters := by
  unfold avgClusterDensity
  split
  · exact le_refl 0
  · apply div_nonneg
    · apply List.sum_nonneg
      intro x hx
      rw [List.mem_map] at hx
      obtain ⟨c, hc, rfl⟩ := hx
      exact hd c hc
    · positivity

/-- Signal rates are never negative. -/
lemma signalRate_nonneg (graph : Graph) (t : String) (total : ℕ) :
    0 ≤ signalRate graph t total := by
  unfold signalRate
  split
  · exact div_nonneg (by positivity) (by positivity)
  · exact le_refl 0

set_option maxRecDepth 8000 in
/-- C9 counterexample: the engine accepts a configuration with
`cluster_coverage_weight = -1` (nothing validates it), and analyzing the
`scenarioT` window under it — Louvain returning the triangle community —
yields a negative coordination score, violating `0 ≤ coordination_score`. -/
theorem accepted_config_negative_score :
    (analyzeHour triKernels negScoreConfig "g" "bluesky" 0 Store.empty
        scenarioT true).1.coordination_score < 0 := by
  with_unfolding_all decide

/-- C9 (corrected): for every window and every configuration the engine
accepts (it accepts all of them, negative weights included), the returned
coordination score satisfies `score ≤ 100`, and on every window that is
actually scored (no short-circuit) it equals
`min(100, 100 × (cluster_coverage·w_coverage + avg_density·w_density +
sync_rate·w_sync))`; the lower bound `0 ≤ score` holds whenever the three
scoring weights are nonnegative — as under the default configuration — but
can fail under the negative weights the engine also accepts. -/
theorem coordination_score_bounds (K : Kernels) (cfg : CoordinationConfig)
    (tag platform : String) (hs : ℚ) (store : Store) (allPosts : List Post)
    (ok : Bool) :
    (analyzeHour K cfg tag platform hs store allPosts ok).1.coordination_score ≤ 100 ∧
    (¬ (getPostsInWindow allPosts platform hs (hs + 3600)).length <
        cfg.min_cluster_size →
      (buildNetwork K cfg (getPostsInWindow allPosts platform hs
          (hs + 3600))).edges.length ≠ 0 →
      (analyzeHour K cfg tag platform hs store allPosts ok).1.coordination_score =
        min 100 (100 *
          (clusterCoverage (getPostsInWindow allPosts platform hs (hs + 3600))
              (detectClusters K cfg tag (buildNetwork K cfg
                (getPostsInWindow allPosts platform hs (hs + 3600)))) *
            cfg.cluster_coverage_weight +
          avgClusterDensity (detectClusters K cfg tag (buildNetwork K cfg
              (getPostsInWindow allPosts platform hs (hs + 3600)))) *
            cfg.density_weight +
          signalRate (buildNetwork K cfg (getPostsInWindow allPosts platform hs
              (hs + 3600))) "synchronized_posting"
              (getPostsInWindow allPosts platform hs (hs + 3600)).length *
            cfg.sync_rate_weight))) ∧
    (0 ≤ cfg.cluster_coverage_weight → 0 ≤ cfg.density_weight →
      0 ≤ cfg.sync_rate_weight →
      0 ≤ (analyzeHour K cfg tag platform hs store
        allPosts ok).1.coordination_score) := by
  by_cases hlen : (getPostsInWindow allPosts platform hs (hs + 3600)).length <
      cfg.min_cluster_size
  · have hres : (analyzeHour K cfg tag platform hs store allPosts ok).1 =
        emptyResult platform hs (hs + 3600) := by
      unfold analyzeHour
      simp [hlen]
    rw [hres]
    refine ⟨by norm_num [emptyResult], ?_, ?_⟩
    · intro hc
      exact absurd hlen hc
    · intro _ _ _
      norm_num [emptyResult]
  · by_cases hedge : (buildNetwork K cfg (getPostsInWindow allPosts platform hs
        (hs + 3600))).edges.length = 0
    · have hres : (analyzeHour K cfg tag platform hs store allPosts ok).1 =
          emptyResult platform hs (hs + 3600) := by
        unfold analyzeHour
        simp [hlen, hedge]
      rw [hres]
      refine ⟨by norm_num [emptyResult], ?_, ?_⟩
      · intro _ hc
        exact absurd hedge hc
      · intro _ _ _
        norm_num [emptyResult]
    · have hres : (analyzeHour K cfg tag platform hs store allPosts ok).1 =
          calculateMetrics cfg platform hs (hs + 3600)
            (getPostsInWindow allPosts platform hs (hs + 3600))
            (buildNetwork K cfg (getPostsInWindow allPosts platform hs
              (hs + 3600)))
            (detectClusters K cfg tag (buildNetwork K cfg
              (getPostsInWindow allPosts platform hs (hs + 3600)))) := by
        unfold analyzeHour
        simp [hlen, hedge]
      have hscore : (calculateMetrics cfg platform hs (hs + 3600)
            (getPostsInWindow allPosts platform hs (hs + 3600))
            (buildNetwork K cfg (getPostsInWindow allPosts platform hs
              (hs + 3600)))
            (detectClusters K cfg tag (buildNetwork K cfg
              (getPostsInWindow allPosts platform hs
                (hs + 3600))))).coordination_score =
          min
            ((clusterCoverage (getPostsInWindow allPosts platform hs (hs + 3600))
                (detectClusters K cfg tag (buildNetwork K cfg
                  (getPostsInWindow allPosts platform hs (hs + 3600)))) *
              cfg.cluster_coverage_weight +
            avgClusterDensity (detectClusters K cfg tag (buildNetwork K cfg
                (getPostsInWindow allPosts platform hs (hs + 3600)))) *
              cfg.density_weight +
            signalRate (buildNetwork K cfg (getPostsInWindow allPosts platform
                hs (hs + 3600))) "synchronized_posting"
                (getPostsInWindow allPosts platform hs (hs + 3600)).length *
              cfg.sync_rate_weight) * 100) 100 := rfl
      rw [hres]
      have hcov := clusterCoverage_nonneg
        (getPostsInWindow allPosts platform hs (hs + 3600))
        (detectClusters K cfg tag (buildNetwork K cfg
          (getPostsInWindow allPosts platform hs (hs + 3600))))
      have havg := avgClusterDensity_nonneg _
        (detectClusters_density_nonneg K cfg tag (buildNetwork K cfg
          (getPostsInWindow allPosts platform hs (hs + 3600))))
      have hsync := signalRate_nonneg (buildNetwork K cfg
          (getPostsInWindow allPosts platform hs (hs + 3600)))
        "synchronized_posting"
        (getPostsInWindow allPosts platform hs (hs + 3600)).length
      refine ⟨?_, ?_, ?_⟩
      · rw [hscore]
        exact min_le_right _ _
      · intro _ _
        rw [hscore, min_comm]
        congr 1
        ring
      · intro h1 h2 h3
        rw [hscore]
        apply le_min
        · exact mul_nonneg
            (add_nonneg (add_nonneg (mul_nonneg hcov h1) (mul_nonneg havg h2))
              (mul_nonneg hsync h3)) (by norm_num)
        · norm_num

/-- C9 witness: the theorem instantiated on the Scenario B window under the
default configuration, whose scoring weights are nonnegative. -/
theorem coordination_score_bounds_witness :
    (analyzeHour noKernels defaultConfig "t" "bluesky" 0 Store.empty
        scenarioB true).1.coordination_score ≤ 100 ∧
    (¬ (getPostsInWindow scenarioB "bluesky" 0 (0 + 3600)).length <
        defaultConfig.min_cluster_size →
      (buildNetwork noKernels defaultConfig (getPostsInWindow scenarioB
          "bluesky" 0 (0 + 3600))).edges.length ≠ 0 →
      (analyzeHour noKernels defaultConfig "t" "bluesky" 0 Store.empty
          scenarioB true).1.coordination_score =
        min 100 (100 *
          (clusterCoverage (getPostsInWindow scenarioB "bluesky" 0 (0 + 3600))
              (detectClusters noKernels defaultConfig "t"
                (buildNetwork noKernels defaultConfig
                  (getPostsInWindow scenarioB "bluesky" 0 (0 + 3600)))) *
            defaultConfig.cluster_coverage_weight +
          avgClusterDensity (detectClusters noKernels defaultConfig "t"
              (buildNetwork noKernels defaultConfig
                (getPostsInWindow scenarioB "bluesky" 0 (0 + 3600)))) *
            defaultConfig.density_weight +
          signalRate (buildNetwork noKernels defaultConfig
              (getPostsInWindow scenarioB "bluesky" 0 (0 + 3600)))
              "synchronized_posting"
              (getPostsInWindow scenarioB "bluesky" 0 (0 + 3600)).length *
            defaultConfig.sync_rate_weight))) ∧
    (0 ≤ defaultConfig.cluster_coverage_weight →
      0 ≤ defaultConfig.density_weight → 0 ≤ defaultConfig.sync_rate_weight →
      0 ≤ (analyzeHour noKernels defaultConfig "t" "bluesky" 0 Store.empty
        scenarioB true).1.coordination_score) :=
  coordination_score_bounds noKernels defaultConfig "t" "bluesky" 0
    Store.empty scenarioB true

/-- The canonical unordered post-pair key of a URL-sharing result. -/
def urlResKey (r : SimilarityResult) : String × String :=
  pairKey r.item1_id r.item2_id

/-- Invariant of the URL-sharing scan state: the emitted results have
pairwise-distinct post-pair keys, and every emitted key has been recorded
in `seen_pairs`. -/
def UrlInv (st : List SimilarityResult × List (String × String)) : Prop :=
  (st.1.map urlResKey).Nodup ∧ ∀ r ∈ st.1, urlResKey r ∈ st.2

/-- One comparison step preserves the scan invariant. -/
lemma urlStep_inv (url : String) (p : String × String)
    (st : List SimilarityResult × List (String × String))
    (q : String × String) (h : UrlInv st) : UrlInv (urlStep url p st q) := by
  unfold urlStep
  split
  · exact h
  · split
    · exact h
    · rename_i hacc hnotin
      constructor
      · rw [List.map_append, List.nodup_append]
        refine ⟨h.1, List.nodup_singleton _, ?_⟩
        intro a ha hb
        simp only [List.map_cons, List.map_nil, List.mem_singleton] at hb
        rw [List.mem_map] at ha
        obtain ⟨r, hr, hkey⟩ := ha
        have : urlResKey r ∈ st.2 := h.2 r hr
        rw [hkey, hb] at this
        exact hnotin this
      · intro r hr
        rw [List.mem_append] at hr
        cases hr with
        | inl hr => exact List.mem_append_left _ (h.2 r hr)
        | inr hr =>
          simp only [List.mem_singleton] at hr
          subst hr
          exact List.mem_append_right _ (List.mem_singleton.mpr rfl)

/-- A fold whose step preserves a predicate preserves it overall. -/
lemma foldlPreserves {α β : Type} (P : β → Prop) (f : β → α → β)
    (hf : ∀ b a, P b → P (f b a)) :
    ∀ (l : List α) (b : β), P b → P (l.foldl f b) := by
  intro l
  induction l with
  | nil => exact fun b hb => hb
  | cons a l ih => exact fun b hb => ih _ (hf b a hb)

/-- The nested pair loop over one URL's posts preserves the invariant. -/
lemma urlScanGroup_inv (url : String) :
    ∀ (ps : List (String × String))
      (st : List SimilarityResult × List (String × String)),
      UrlInv st → UrlInv (urlScanGroup url ps st) := by
  intro ps
  induction ps with
  | nil => exact fun st h => h
  | cons p rest ih =>
    intro st h
    exact ih _ (foldlPreserves UrlInv (urlStep url p) (urlStep_inv url p)
      rest st h)

/-- C6 counterexample: accounts `A` and `B` share url `u1` through posts
`p1`/`p2` and url `u2` through posts `p3`/`p4`; `find_url_sharing_pairs`
emits two similarity results, both for the same account pair (A, B) — the
dedup key is the unordered post-id pair, not the account pair. -/
theorem url_sharing_two_results_same_account_pair :
    (findUrlSharingPairs extractSelf urlPosts4).length = 2 ∧
    ∀ r ∈ findUrlSharingPairs extractSelf urlPosts4,
      r.evidence.account1 = "A" ∧ r.evidence.account2 = "B" := by
  with_unfolding_all decide

/-- C6 (corrected): the URL-Sharing signal emits at most one similarity
result per unordered pair of posts within a window — a post pair sharing
several URLs is recorded once — but the same pair of distinct accounts can
be emitted several times via different post pairs, one per shared URL. -/
theorem url_sharing_dedup_per_post_pair (f : String → List String)
    (posts : List (String × String × String)) :
    ((findUrlSharingPairs f posts).map urlResKey).Nodup := by
  unfold findUrlSharingPairs
  split
  · simp
  · split
    · simp
    · have hinv : UrlInv ((urlIndex (postUrls f posts)).foldl
          (fun st g => if g.2.length < 2 then st else urlScanGroup g.1 g.2 st)
          ([], [])) := by
        apply foldlPreserves UrlInv
        · intro st g h
          dsimp only
          split
          · exact h
          · exact urlScanGroup_inv g.1 g.2 st h
        · exact ⟨List.nodup_nil, by intro r hr; simp at hr⟩
      exact hinv.1

/-- C7 (confirmed): the synchronized-posting forward scan with early exit
equals the naive full pairwise comparison on the time-sorted list — for
every ordered cross-account pair of posts within `sync_window_seconds` of
each other exactly one pair is emitted, and the `break` at the first
exceeding delta loses no qualifying pair. `naiveSyncPairs` is the
specification-side definition written from the spec's words. -/
theorem sync_scan_equals_naive (cfg : CoordinationConfig)
    (posts : List Post) :
    findSynchronizedPairs cfg posts =
      naiveSyncPairs cfg (List.insertionSort timeLe posts) := by
  have inner : ∀ (p : Post) (rest : List Post), rest.Pairwise timeLe →
      syncInner cfg p rest =
        (rest.filter fun q =>
          q.created_at - p.created_at ≤ cfg.sync_window_seconds ∧
            p.account_id ≠ q.account_id).map (mkSyncEdge p) := by
    intro p rest
    induction rest with
    | nil => intro _; rfl
    | cons q rest ih =>
      intro hpw
      rw [List.pairwise_cons] at hpw
      obtain ⟨hq, hrest⟩ := hpw
      by_cases hgt : q.created_at - p.created_at > cfg.sync_window_seconds
      · have hnil : (rest.filter fun r =>
            decide (r.created_at - p.created_at ≤ cfg.sync_window_seconds ∧
              p.account_id ≠ r.account_id)) = [] := by
          rw [List.filter_eq_nil_iff]
          intro r hr
          have hle : q.created_at ≤ r.created_at := hq r hr
          simp only [decide_eq_true_eq, not_and]
          intro hcon
          exact absurd hcon (not_le.mpr (lt_of_lt_of_le hgt (by linarith)))
        simp only [syncInner, if_pos hgt, List.filter_cons,
          decide_eq_true_eq]
        rw [if_neg (by simp [not_le.mpr hgt]), hnil]
        rfl
      · rw [not_lt] at hgt
        by_cases hacc : p.account_id ≠ q.account_id
        · simp only [syncInner, if_neg (not_lt.mpr hgt), if_pos hacc,
            List.filter_cons]
          rw [if_pos (by simp [hgt, hacc]), List.map_cons, ih hrest]
        · rw [not_not] at hacc
          simp only [syncInner, if_neg (not_lt.mpr hgt), if_neg
            (by rw [not_not]; exact hacc), List.filter_cons]
          rw [if_neg (by simp [hacc]), ih hrest]
  have scan : ∀ l : List Post, l.Pairwise timeLe →
      syncScan cfg l = naiveSyncPairs cfg l := by
    intro l
    induction l with
    | nil => intro _; rfl
    | cons p rest ih =>
      intro h
      rw [List.pairwise_cons] at h
      show syncInner cfg p rest ++ syncScan cfg rest = _
      rw [inner p rest h.2, ih h.2]
      rfl
  exact scan _ (List.sorted_insertionSort timeLe posts)

/-- C8 (confirmed): with `std` the population standard deviation computed
by `np.std` (the nonnegative square root of the population variance of the
lookback's scores), `get_spikes` returns the empty list when fewer than 10
metrics exist in the lookback or when that deviation is 0; otherwise it
returns exactly the metrics whose z-score `(score − mean)/std` is at least
`threshold_std`, each spike carrying the baseline mean and deviation used,
sorted by z-score descending. -/
theorem get_spikes_characterization (store : Store) (platform : String)
    (cutoff std threshold : ℚ) (h0 : 0 ≤ std)
    (hv : std * std =
      popVariance ((lookbackMetrics store platform cutoff).map
        (·.coordination_score))) :
    ((lookbackMetrics store platform cutoff).length < 10 →
      getSpikes store platform cutoff std threshold = []) ∧
    (std = 0 → getSpikes store platform cutoff std threshold = []) ∧
    (10 ≤ (lookbackMetrics store platform cutoff).length → std ≠ 0 →
      (getSpikes store platform cutoff std threshold).Perm
        ((lookbackMetrics store platform cutoff).filterMap fun m =>
          if threshold ≤ (m.coordination_score -
              listMean ((lookbackMetrics store platform cutoff).map
                (·.coordination_score))) / std then
            some (mkSpike m
              (listMean ((lookbackMetrics store platform cutoff).map
                (·.coordination_score))) std)
          else none) ∧
      (getSpikes store platform cutoff std threshold).Sorted zGe ∧
      ∀ s ∈ getSpikes store platform cutoff std threshold,
        s.baseline_mean =
          listMean ((lookbackMetrics store platform cutoff).map
            (·.coordination_score)) ∧
        s.baseline_std = std) := by
  refine ⟨?_, ?_, ?_⟩
  · intro h
    unfold getSpikes
    rw [if_pos h]
  · intro h
    unfold getSpikes
    simp [h]
  · intro hlen hstd
    have hres : getSpikes store platform cutoff std threshold =
        List.insertionSort zGe
          ((lookbackMetrics store platform cutoff).filterMap fun m =>
            if threshold ≤ (m.coordination_score -
                listMean ((lookbackMetrics store platform cutoff).map
                  (·.coordination_score))) / std then
              some (mkSpike m
                (listMean ((lookbackMetrics store platform cutoff).map
                  (·.coordination_score))) std)
            else none) := by
      unfold getSpikes
      rw [if_neg (not_lt.mpr hlen), if_neg hstd]
    rw [hres]
    refine ⟨List.perm_insertionSort zGe _, List.sorted_insertionSort zGe _, ?_⟩
    intro s hs
    have hs' : s ∈ (lookbackMetrics store platform cutoff).filterMap fun m =>
        if threshold ≤ (m.coordination_score -
            listMean ((lookbackMetrics store platform cutoff).map
              (·.coordination_score))) / std then
          some (mkSpike m
            (listMean ((lookbackMetrics store platform cutoff).map
              (·.coordination_score))) std)
        else none :=
      (List.perm_insertionSort zGe _).mem_iff.mp hs
    rw [List.mem_filterMap] at hs'
    obtain ⟨m, _, hsome⟩ := hs'
    split at hsome
    · rw [Option.some_inj] at hsome
      rw [← hsome]
      exact ⟨rfl, rfl⟩
    · exact absurd hsome (by simp)

/-- C8 witness: Scenario C — nine hourly scores of 10 and one of 50,
population mean 14, variance 144, standard deviation 12. -/
theorem get_spikes_characterization_witness :
    (0 ≤ (12 : ℚ) ∧ (12 : ℚ) * 12 =
      popVariance ((lookbackMetrics scenarioCStore "p" 0).map
        (·.coordination_score))) ∧
    (((lookbackMetrics scenarioCStore "p" 0).length < 10 →
        getSpikes scenarioCStore "p" 0 12 2 = []) ∧
      ((12 : ℚ) = 0 → getSpikes scenarioCStore "p" 0 12 2 = []) ∧
      (10 ≤ (lookbackMetrics scenarioCStore "p" 0).length → (12 : ℚ) ≠ 0 →
        (getSpikes scenarioCStore "p" 0 12 2).Perm
          ((lookbackMetrics scenarioCStore "p" 0).filterMap fun m =>
            if (2 : ℚ) ≤ (m.coordination_score -
                listMean ((lookbackMetrics scenarioCStore "p" 0).map
                  (·.coordination_score))) / 12 then
              some (mkSpike m
                (listMean ((lookbackMetrics scenarioCStore "p" 0).map
                  (·.coordination_score))) 12)
            else none) ∧
        (getSpikes scenarioCStore "p" 0 12 2).Sorted zGe ∧
        ∀ s ∈ getSpikes scenarioCStore "p" 0 12 2,
          s.baseline_mean =
            listMean ((lookbackMetrics scenarioCStore "p" 0).map
              (·.coordination_score)) ∧
          s.baseline_std = 12)) :=
  ⟨⟨by with_unfolding_all decide, by with_unfolding_all decide⟩,
    get_spikes_characterization scenarioCStore "p" 0 12 2
      (by with_unfolding_all decide) (by with_unfolding_all decide)⟩

end Purisa
